import Mathlib

/-!
Verification of the two-layer quasi-geostrophic model (phillips_model.py).

The numerical core is shallowly embedded over exact rationals: a grid field
is a total function from a pair of indices to a rational, mirroring the
(nx+1) x (ny+1) numpy arrays with 1-based interior convention.  Loops become
folds over the list of interior points in the source's visit order, and the
iteration caps of the relaxation solvers become fuel-indexed recursion.
-/

set_option maxHeartbeats 1600000

namespace Phillips

/-- A two-dimensional field over the grid: index order is (longitude i, latitude j),
mirroring a numpy array of shape (nx+1, ny+1). -/
abbrev Grid2 := ℕ → ℕ → ℚ

/-- Point update of a field, mirroring an in-place numpy element assignment. -/
def upd (g : Grid2) (a b : ℕ) (q : ℚ) : Grid2 :=
  fun i j => if i = a ∧ j = b then q else g i j

/-- The all-zero field (np.zeros). -/
def zeroG : Grid2 := fun _ _ => 0

/-- Mean of column j of a field over ALL longitude indices 0..nx, mirroring
v[:,j].mean() on an array of shape (nx+1, ny+1). -/
def rowMean (g : Grid2) (nx j : ℕ) : ℚ :=
  (((List.range (nx + 1)).map (fun i => g i j)).sum) / (nx + 1)

/-- Interior points in source visit order: for j in range(1,ny): for i in range(1,nx+1). -/
def interiorPts (nx ny : ℕ) : List (ℕ × ℕ) :=
  ((List.range (ny - 1)).map (fun a => a + 1)).flatMap
    (fun j => ((List.range nx).map (fun a => a + 1)).map (fun i => (i, j)))

/-- Periodic wrap of the left neighbour index: im = i-1; if im == 0: im = nx. -/
def wrapm (nx i : ℕ) : ℕ := if i - 1 = 0 then nx else i - 1

/-- Periodic wrap of the right neighbour index: ip = i+1; if ip == nx+1: ip = 1. -/
def wrapp (nx i : ℕ) : ℕ := if i + 1 = nx + 1 then 1 else i + 1

/-- Middle-square pseudo-random generator (msq_rand): square, drop the low
5 decimal digits, keep the middle 10 digits. -/
def msq_rand (x : ℕ) : ℕ := x * x / 10 ^ 5 % 10 ^ 10

/-- The pseudo-random sequence used by Model.perturb, iterated from the fixed
seed 1111111111; perturbSeq n is the value of rval after n calls of msq_rand. -/
def perturbSeq : ℕ → ℕ
  | 0 => 1111111111
  | n + 1 => msq_rand (perturbSeq n)

namespace Grid

def L : ℚ := 6000000

def W : ℚ := 5000000

def nx : ℕ := 16

def ny : ℕ := 16

def dx : ℚ := L / nx

def dy : ℚ := 2 * W / ny

end Grid

namespace Model

def eps : ℚ := Grid.dx / Grid.dy

def epsq : ℚ := eps * eps

def heat : ℚ := 2 / 10 ^ 3

def lambdasq : ℚ := 15 / 10 ^ 13

def rgas : ℚ := 287

def cp : ℚ := 1004

def f0 : ℚ := 1 / 10 ^ 4

def beta : ℚ := 16 / 10 ^ 12

def gamma : ℚ := lambdasq * Grid.dx ^ 2

def k : ℚ := 4 / 10 ^ 6

def a : ℚ := 10 ^ 5

def noisescale : ℚ := 7509000

def dt1 : ℚ := 86400

def dt2 : ℚ := 7200

def min_dt : ℚ := 1800

end Model

/-! ## Anomaly streamfunction relaxation (relax1_nb) -/

/-- State threaded through one relaxation sweep of relax1_nb: the two
streamfunction anomaly levels and the running change / maxdiff accumulators. -/
structure Relax1St where
  s1 : Grid2
  s3 : Grid2
  change : ℚ
  maxdiff : ℚ

/-- One grid-point update of relax1_nb (both levels, Gauss-Seidel in place:
the level-3 residual reads the freshly updated level-1 value). -/
def relax1_point (nx : ℕ) (epsq gamma : ℚ) (v1 v3 : Grid2) (st : Relax1St)
    (p : ℕ × ℕ) : Relax1St :=
  let i := p.1
  let j := p.2
  let im := wrapm nx i
  let ip := wrapp nx i
  let jm := j - 1
  let jp := j + 1
  let r1 := (st.s1 ip j + st.s1 im j + epsq * (st.s1 i jp + st.s1 i jm)
              - v1 i j + gamma * st.s3 i j)
            - (2 + 2 * epsq + gamma) * st.s1 i j
  let r1 := r1 / (2 + 2 * epsq + gamma)
  let change1 := st.change + r1 ^ 2
  let md1 := max st.maxdiff |r1|
  let s1 := upd st.s1 i j (st.s1 i j + r1)
  let r3 := (st.s3 ip j + st.s3 im j + epsq * (st.s3 i jp + st.s3 i jm)
              - v3 i j + gamma * s1 i j)
            - (2 + 2 * epsq + gamma) * st.s3 i j
  let r3 := r3 / (2 + 2 * epsq + gamma)
  let change3 := change1 + r3 ^ 2
  let md3 := max md1 |r3|
  let s3 := upd st.s3 i j (st.s3 i j + r3)
  ⟨s1, s3, change3, md3⟩

/-- One relax1_nb sweep along an explicit visit order of grid points, with the
change and maxdiff accumulators reset to zero at the start of the sweep. -/
def relax1_sweepOrder (order : List (ℕ × ℕ)) (nx : ℕ) (epsq gamma : ℚ)
    (v1 v3 s1 s3 : Grid2) : Relax1St :=
  order.foldl (relax1_point nx epsq gamma v1 v3) ⟨s1, s3, 0, 0⟩

/-- One relax1_nb sweep in the source's visit order (j outer 1..ny-1, i inner 1..nx). -/
def relax1_sweep (nx ny : ℕ) (epsq gamma : ℚ) (v1 v3 s1 s3 : Grid2) : Relax1St :=
  relax1_sweepOrder (interiorPts nx ny) nx epsq gamma v1 v3 s1 s3

/-- The iteration loop of relax1_nb: fuel counts the remaining iterations of
`for iter in range(100)`, iter is the current value of the loop variable.
Returns the final state together with the last value of iter, change, maxdiff.
The sweep breaks as soon as maxdiff < 0.5*3.75e4. -/
def relax1_run (nx ny : ℕ) (epsq gamma : ℚ) (v1 v3 : Grid2) :
    ℕ → ℕ → Grid2 × Grid2 → (Grid2 × Grid2) × ℕ × ℚ × ℚ
  | 0, iter, st => (st, iter, 0, 0)
  | fuel + 1, iter, st =>
    let r := relax1_sweep nx ny epsq gamma v1 v3 st.1 st.2
    if r.maxdiff < (1 / 2) * 37500 then ((r.s1, r.s3), iter, r.change, r.maxdiff)
    else
      match fuel with
      | 0 => ((r.s1, r.s3), iter, r.change, r.maxdiff)
      | f + 1 => relax1_run nx ny epsq gamma v1 v3 (f + 1) (iter + 1) (r.s1, r.s3)

/-- relax1_nb: run up to 100 sweeps from the given streamfunction anomaly seed;
after the loop, `if iter >= 100: raise Exception("RELAX1 failed ...")` is
mirrored by the error branch. -/
def relax1_nb (v1 v3 s1 s3 : Grid2) (nx ny : ℕ) (epsq gamma : ℚ) :
    Except String (Grid2 × Grid2) :=
  let r := relax1_run nx ny epsq gamma v1 v3 100 0 (s1, s3)
  if 100 ≤ r.2.1 then Except.error "RELAX1 failed" else Except.ok r.1

/-- A divergent forcing for relax1_nb on a 1 x 2 grid with epsq = gamma = 0:
vorticity anomaly 10^6 at the single interior point. -/
def c1v1 : Grid2 := fun i j => if i = 1 ∧ j = 1 then 1000000 else 0

/-- Closed form of the relax1_nb iterate on the input c1v1: after n sweeps the
level-1 anomaly streamfunction holds -n*500000 at the interior point. -/
def c1s (n : ℕ) : Grid2 := fun i j => if i = 1 ∧ j = 1 then -(n : ℚ) * 500000 else 0

/-! ## Anomaly vorticity relaxation (relax2_nb) -/

/-- Value written into the level-1 temp array at (i,j) by one relax2_nb sweep:
it reads only the previous iterate v1 (a double buffer, Jacobi style). -/
def relax2_tval1 (nx : ℕ) (alpha epsq : ℚ) (x1 v1 : Grid2) (i j : ℕ) : ℚ :=
  (alpha * (v1 (wrapp nx i) j + v1 (wrapm nx i) j + epsq * (v1 i (j + 1) + v1 i (j - 1)))
    + x1 i j) / (2 * alpha * (1 + epsq) + 1)

/-- Value written into the level-3 temp array at (i,j): the denominator carries
the extra implicit drag term 1.5*k*dt. -/
def relax2_tval3 (nx : ℕ) (alpha epsq k dt : ℚ) (x3 v3 : Grid2) (i j : ℕ) : ℚ :=
  (alpha * (v3 (wrapp nx i) j + v3 (wrapm nx i) j + epsq * (v3 i (j + 1) + v3 i (j - 1)))
    + x3 i j) / (2 * alpha * (1 + epsq) + 1 + (3 / 2) * k * dt)

/-- One grid-point write of the temp arrays inside a relax2_nb sweep. -/
def relax2_tempStep (nx : ℕ) (alpha epsq k dt : ℚ) (x1 x3 v1 v3 : Grid2)
    (t : Grid2 × Grid2) (p : ℕ × ℕ) : Grid2 × Grid2 :=
  (upd t.1 p.1 p.2 (relax2_tval1 nx alpha epsq x1 v1 p.1 p.2),
   upd t.2 p.1 p.2 (relax2_tval3 nx alpha epsq k dt x3 v3 p.1 p.2))

/-- Build the pair of temp arrays by visiting grid points in the given order. -/
def relax2_tempOrder (order : List (ℕ × ℕ)) (nx : ℕ) (alpha epsq k dt : ℚ)
    (x1 x3 v1 v3 : Grid2) : Grid2 × Grid2 :=
  order.foldl (relax2_tempStep nx alpha epsq k dt x1 x3 v1 v3) (zeroG, zeroG)

/-- np.sum((v[1:,1:] - temp[1:,1:])**2): longitudes 1..nx and latitudes 1..ny
(the boundary row j = ny is included by the slice). -/
def relax2_changeSum (v t : Grid2) (nx ny : ℕ) : ℚ :=
  ((List.range nx).map (fun a =>
    ((List.range ny).map (fun b => (v (a + 1) (b + 1) - t (a + 1) (b + 1)) ^ 2)).sum)).sum

/-- Copy of the temp interior rows (v[:,1:ny] = temp[:,1:ny]) followed by the
A17 boundary-condition rows j = 0 and j = ny (means of the adjacent rows). -/
def relax2_copyBC (nx ny : ℕ) (v t : Grid2) : Grid2 :=
  let c : Grid2 := fun i j => if 1 ≤ j ∧ j ≤ ny - 1 then t i j else v i j
  fun i j =>
    if j = 0 then rowMean c nx 1
    else if j = ny then rowMean c nx (ny - 1) else c i j

/-- One full relax2_nb sweep with the temp arrays built along an explicit visit
order: returns the new state together with the two per-level change sums. -/
def relax2_sweepOrder (order : List (ℕ × ℕ)) (nx ny : ℕ) (alpha epsq k dt : ℚ)
    (x1 x3 : Grid2) (st : Grid2 × Grid2) : (Grid2 × Grid2) × ℚ × ℚ :=
  let t := relax2_tempOrder order nx alpha epsq k dt x1 x3 st.1 st.2
  let change1 := relax2_changeSum st.1 t.1 nx ny
  let v1 := relax2_copyBC nx ny st.1 t.1
  let change3 := relax2_changeSum st.2 t.2 nx ny
  let v3 := relax2_copyBC nx ny st.2 t.2
  ((v1, v3), change1, change3)

/-- One relax2_nb sweep in the source's visit order. -/
def relax2_sweep (nx ny : ℕ) (alpha epsq k dt : ℚ) (x1 x3 : Grid2)
    (st : Grid2 × Grid2) : (Grid2 × Grid2) × ℚ × ℚ :=
  relax2_sweepOrder (interiorPts nx ny) nx ny alpha epsq k dt x1 x3 st

/-- The iteration loop of relax2_nb: up to fuel sweeps, breaking as soon as
max(change1, change3) < 1.0; returns the final state and the number of sweeps
actually performed.  There is no error path. -/
def relax2_run (nx ny : ℕ) (alpha epsq k dt : ℚ) (x1 x3 : Grid2) :
    ℕ → Grid2 × Grid2 → (Grid2 × Grid2) × ℕ
  | 0, st => (st, 0)
  | fuel + 1, st =>
    let r := relax2_sweep nx ny alpha epsq k dt x1 x3 st
    if max r.2.1 r.2.2 < 1 then (r.1, 1)
    else
      let rest := relax2_run nx ny alpha epsq k dt x1 x3 fuel r.1
      (rest.1, rest.2 + 1)

/-- relax2_nb: zero the vorticity anomaly (v1[:] = 0.0; v3[:] = 0.0) and run up
to 100 sweeps; the incoming anomaly arrays v10, v30 are overwritten before any
read, so they are dead inputs. -/
def relax2_nb (v10 v30 x1 x3 : Grid2) (dt : ℚ) (nx ny : ℕ) (alpha epsq k : ℚ) :
    (Grid2 × Grid2) × ℕ :=
  relax2_run nx ny alpha epsq k dt x1 x3 100 (zeroG, zeroG)

/-- A unit vorticity anomaly at the interior point (1,1) on a 2 x 2 grid, used
to separate the two visit orders of a relax1_nb sweep. -/
def c2v1 : Grid2 := fun i j => if i = 1 ∧ j = 1 then 1 else 0

/-! ## Layered field (class Var) -/

/-- A two-level variable: total fields, anomalies, zonal means, mirroring the
six numpy arrays of class Var. -/
structure Var where
  l1t : Grid2
  l3t : Grid2
  l1 : Grid2
  l3 : Grid2
  l1z : ℕ → ℚ
  l3z : ℕ → ℚ

/-- Var.calc_zmean: per latitude, the mean of the total field over the interior
longitudes 1..nx (l1t[1:nx+1,:].mean(axis=0)). -/
def Var.calc_zmean (v : Var) : Var :=
  { v with
    l1z := fun j => (((List.range Grid.nx).map (fun a => v.l1t (a + 1) j)).sum) / (Grid.nx : ℚ)
    l3z := fun j => (((List.range Grid.nx).map (fun a => v.l3t (a + 1) j)).sum) / (Grid.nx : ℚ) }

/-- Var.split: compute the zonal means, then anomaly = total - zonal mean
broadcast over longitude. -/
def Var.split (v : Var) : Var :=
  let w := v.calc_zmean
  { w with
    l1 := fun i j => w.l1t i j - w.l1z j
    l3 := fun i j => w.l3t i j - w.l3z j }

/-- Recomposition of the total field as anomaly plus zonal mean broadcast over
longitude, mirroring the inline loops `s.l1t[:,j] = s.l1[:,j] + s.l1z[j]` of
Model.step. -/
def Var.composeTot (v : Var) : Var :=
  { v with
    l1t := fun i j => v.l1 i j + v.l1z j
    l3t := fun i j => v.l3 i j + v.l3z j }

/-! ## Explicit tendency computation (xcalc_nb) -/

/-- One grid-point write of xcalc_nb: advection Jacobian, beta term, explicit
diffusion of the previous vorticity, heating (opposite sign on the two levels),
and for level 3 the linear drag correction. -/
def xcalc_point (nx ny : ℕ) (dt epsq alpha b c h k gamma : ℚ)
    (v1t v3t vm1t vm3t s1t s3t : Grid2) (x : Grid2 × Grid2) (p : ℕ × ℕ) :
    Grid2 × Grid2 :=
  let i := p.1
  let j := p.2
  let im := wrapm nx i
  let ip := wrapp nx i
  let jm := j - 1
  let jp := j + 1
  let x1v := vm1t i j +
    c * ((v1t ip j - v1t im j) * (s1t i jp - s1t i jm) -
         (2 * b + v1t i jp - v1t i jm) * (s1t ip j - s1t im j)) +
    alpha * (vm1t ip j + vm1t im j - 2 * vm1t i j +
             epsq * (vm1t i jp + vm1t i jm - 2 * vm1t i j)) +
    h * (2 * (j : ℚ) - ny) / ny
  let x3v := vm3t i j +
    c * ((v3t ip j - v3t im j) * (s3t i jp - s3t i jm) -
         (2 * b + v3t i jp - v3t i jm) * (s3t ip j - s3t im j)) +
    alpha * (vm3t ip j + vm3t im j - 2 * vm3t i j +
             epsq * (vm3t i jp + vm3t i jm - 2 * vm3t i j)) -
    h * (2 * (j : ℚ) - ny) / ny
  let x3v := x3v - k * dt * ((3 / 2) * vm3t i j - v1t i j
    - 4 * gamma * (s1t i j - s3t i j))
  (upd x.1 i j x1v, upd x.2 i j x3v)

/-- xcalc_nb: zero the whole tendency arrays (x1t[:] = 0.0; x3t[:] = 0.0), then
write the interior points; the incoming tendency arrays x1t, x3t are dead. -/
def xcalc_nb (v1t v3t vm1t vm3t s1t s3t x1t x3t : Grid2) (dt : ℚ) (nx ny : ℕ)
    (epsq alpha b c h k gamma : ℚ) : Grid2 × Grid2 :=
  (interiorPts nx ny).foldl
    (xcalc_point nx ny dt epsq alpha b c h k gamma v1t v3t vm1t vm3t s1t s3t)
    (zeroG, zeroG)

/-- A tendency array holding 5 everywhere before the call to xcalc_nb. -/
def c4x : Grid2 := fun _ _ => 5

/-! ## The middle-square pseudo-random generator -/

/-! ## Adaptive time step of Model.step -/

/-- The simulation clock and active time step of the model. -/
structure Clock where
  time : ℚ
  dt : ℚ

/-- self.time % 86400 == 0, for a clock value modelled as an exact rational:
the quotient by 86400 is an integer. -/
def isDayMultiple (t : ℚ) : Prop := (t / 86400).den = 1

instance (t : ℚ) : Decidable (isDayMultiple t) := by
  unfold isDayMultiple
  infer_instance

/-- The clock and step-size update at the end of Model.step: advance time by
dt, then (variable_step is True in the configuration) if the new time is a
whole day, dt > min_dt and the stability criterion exceeds 0.9, shorten dt by
exactly min_dt.  The stability-criterion value stab is an oracle input, since
it depends on fields not modelled here; the update reads it only through the
comparison stab > 0.9, exactly as the source does. -/
def stepClock (stab : ℚ) (cl : Clock) : Clock :=
  let t := cl.time + cl.dt
  if isDayMultiple t ∧ Model.min_dt < cl.dt ∧ 9 / 10 < stab then
    { time := t, dt := cl.dt - Model.min_dt }
  else
    { time := t, dt := cl.dt }

/-- A sequence of Model.step calls acting on the clock, fed by a list of
stability-criterion values. -/
def runClock (l : List ℚ) (cl : Clock) : Clock :=
  l.foldl (fun cl stab => stepClock stab cl) cl

/-- The step sizes reachable from the configured initial step dt2 = 7200 with
decrement min_dt = 1800. -/
def dtOK (q : ℚ) : Prop := q = 1800 ∨ q = 3600 ∨ q = 5400 ∨ q = 7200

/-! ## Zonal vorticity update in Model.step (forward-step special case) -/

/-- The zonal vorticity update section of Model.step (identical in
Model.spinup): calc_zvor solves the tridiagonal systems for the new zonal-mean
vorticity — abstracted here as the argument zsolve, since the source delegates
the solve to LAPACK dgtsv; then, when the simulation clock is zero, the solve
result is replaced by half the zonal-mean tendency (v.l1z = 0.5*x.l1z;
v.l3z = 0.5*x.l3z) and vm is left untouched, while on every later step the
solve result is kept and vm.settot(v) stores the pre-step total vorticity.
Returns the new zonal means (v1z, v3z) and the new previous-step totals. -/
def zvorUpdate (zsolve : (ℕ → ℚ) → (ℕ → ℚ) → (ℕ → ℚ) × (ℕ → ℚ))
    (time : ℚ) (x1z x3z : ℕ → ℚ) (v1t v3t vm1t vm3t : Grid2) :
    ((ℕ → ℚ) × (ℕ → ℚ)) × (Grid2 × Grid2) :=
  let s := zsolve x1z x3z
  if time = 0 then
    ((fun j => (1 / 2) * x1z j, fun j => (1 / 2) * x3z j), (vm1t, vm3t))
  else
    (s, (v1t, v3t))

/-- A first stand-in tridiagonal solver, returning constant zonal profiles. -/
def c7zsA : (ℕ → ℚ) → (ℕ → ℚ) → (ℕ → ℚ) × (ℕ → ℚ) :=
  fun _ _ => (fun _ => 37, fun _ => 41)

/-- A second, different stand-in tridiagonal solver. -/
def c7zsB : (ℕ → ℚ) → (ℕ → ℚ) → (ℕ → ℚ) × (ℕ → ℚ) :=
  fun _ _ => (fun _ => 99, fun _ => 100)

/-! ## Loop behaviour of relax2_nb -/

/-- The n-fold relax2_nb sweep iterate, starting from the zeroed anomaly. -/
def relax2_iterState (nx ny : ℕ) (alpha epsq k dt : ℚ) (x1 x3 : Grid2) :
    ℕ → Grid2 × Grid2
  | 0 => (zeroG, zeroG)
  | n + 1 =>
    (relax2_sweep nx ny alpha epsq k dt x1 x3
      (relax2_iterState nx ny alpha epsq k dt x1 x3 n)).1

/-- The source's convergence test for sweep n+1 (performed on the n-th
iterate): max(change1, change3) < 1.0. -/
def relax2_crit (nx ny : ℕ) (alpha epsq k dt : ℚ) (x1 x3 : Grid2) (n : ℕ) : Prop :=
  max (relax2_sweep nx ny alpha epsq k dt x1 x3
        (relax2_iterState nx ny alpha epsq k dt x1 x3 n)).2.1
      (relax2_sweep nx ny alpha epsq k dt x1 x3
        (relax2_iterState nx ny alpha epsq k dt x1 x3 n)).2.2 < 1

/-- Forcing for the C8 counterexample: tendency anomaly 10 at the single
interior point of a 1 x 2 grid, run with alpha = 1/2, epsq = 0, k = 0. -/
def c8x : Grid2 := fun i j => if i = 1 ∧ j = 1 then 10 else 0

/-- Closed-form interior value of the relax2_nb iterate on c8x after n sweeps. -/
def c8v (n : ℕ) : ℚ := 10 - 10 / 2 ^ n

/-- Closed form of the full level-1 state after n sweeps on c8x: value c8v n at
the interior point, its half on the two boundary rows, zero elsewhere. -/
def c8g (n : ℕ) : Grid2 := fun i j =>
  if j = 1 then (if i = 1 then c8v n else 0)
  else if j = 0 ∨ j = 2 then c8v n / 2 else 0

/-- The change measure of the (n+1)-st sweep on c8x: the interior change plus
the square of the boundary row value (whose temp entry is always zero). -/
def c8ch (n : ℕ) : ℚ := (c8v n - c8v (n + 1)) ^ 2 + (c8v n / 2) ^ 2

/-- Modelled from the spec: "sum of squared changes over all interior points"
— the claimed convergence measure of the anomaly vorticity solver at level 1,
summing over longitudes 1..nx and interior latitudes 1..ny-1 only, for the
m-th sweep (performed on the (m-1)-st iterate). -/
def relax2_interior1 (nx ny : ℕ) (alpha epsq k dt : ℚ) (x1 x3 : Grid2) (m : ℕ) : ℚ :=
  ((List.range nx).map (fun a =>
    ((List.range (ny - 1)).map (fun b =>
      ((relax2_iterState nx ny alpha epsq k dt x1 x3 (m - 1)).1 (a + 1) (b + 1) -
        (relax2_tempOrder (interiorPts nx ny) nx alpha epsq k dt x1 x3
          (relax2_iterState nx ny alpha epsq k dt x1 x3 (m - 1)).1
          (relax2_iterState nx ny alpha epsq k dt x1 x3 (m - 1)).2).1 (a + 1) (b + 1)) ^ 2)).sum)).sum

/-- Modelled from the spec: the same interior-only change measure at level 3. -/
def relax2_interior3 (nx ny : ℕ) (alpha epsq k dt : ℚ) (x1 x3 : Grid2) (m : ℕ) : ℚ :=
  ((List.range nx).map (fun a =>
    ((List.range (ny - 1)).map (fun b =>
      ((relax2_iterState nx ny alpha epsq k dt x1 x3 (m - 1)).2 (a + 1) (b + 1) -
        (relax2_tempOrder (interiorPts nx ny) nx alpha epsq k dt x1 x3
          (relax2_iterState nx ny alpha epsq k dt x1 x3 (m - 1)).1
          (relax2_iterState nx ny alpha epsq k dt x1 x3 (m - 1)).2).2 (a + 1) (b + 1)) ^ 2)).sum)).sum

/-! ## Perturbation (Model.perturb) and calcvor -/

/-- One grid-point write of Model.calcvor: the five-point difference of the
streamfunction with aspect-ratio weighting plus the interlevel coupling,
opposite in sign on the two levels. -/
def calcvor_point (s1t s3t : Grid2) (v : Grid2 × Grid2) (p : ℕ × ℕ) : Grid2 × Grid2 :=
  let i := p.1
  let j := p.2
  let im := wrapm Grid.nx i
  let ip := wrapp Grid.nx i
  let jm := j - 1
  let jp := j + 1
  (upd v.1 i j ((s1t ip j + s1t im j - 2 * s1t i j)
      + Model.epsq * (s1t i jp + s1t i jm - 2 * s1t i j)
      - Model.gamma * (s1t i j - s3t i j)),
   upd v.2 i j ((s3t ip j + s3t im j - 2 * s3t i j)
      + Model.epsq * (s3t i jp + s3t i jm - 2 * s3t i j)
      + Model.gamma * (s1t i j - s3t i j)))

/-- Model.calcvor: the vorticity of a streamfunction on the interior points,
then (following A17) the end rows j = 0 and j = ny are set to the mean of the
adjacent row over all longitude indices. -/
def calcvor (s1t s3t v1t v3t : Grid2) : Grid2 × Grid2 :=
  let f := (interiorPts Grid.nx Grid.ny).foldl (calcvor_point s1t s3t) (v1t, v3t)
  (fun i j =>
    if j = 0 then rowMean f.1 Grid.nx 1
    else if j = Grid.ny then rowMean f.1 Grid.nx (Grid.ny - 1) else f.1 i j,
   fun i j =>
    if j = 0 then rowMean f.2 Grid.nx 1
    else if j = Grid.ny then rowMean f.2 Grid.nx (Grid.ny - 1) else f.2 i j)

/-- The linear re-interpolation of the previous-step vorticity to the new step
size at the start of Model.perturb: vm = v - (v - vm)*dt2/dt1, per level. -/
def perturb_interp (v1t v3t vm1t vm3t : Grid2) : Grid2 × Grid2 :=
  (fun i j => v1t i j - (v1t i j - vm1t i j) * Model.dt2 / Model.dt1,
   fun i j => v3t i j - (v3t i j - vm3t i j) * Model.dt2 / Model.dt1)

/-- The raw middle-square noise streamfunction of Model.perturb: cell (i,j),
for i in 1..nx (outer loop) and j in 1..ny-1 (inner loop), holds the
((i-1)*(ny-1)+j)-th pseudo-random value scaled by 10^-10; both levels hold the
same field. -/
def perturb_stmp : Grid2 := fun i j =>
  if 1 ≤ i ∧ i ≤ Grid.nx ∧ 1 ≤ j ∧ j ≤ Grid.ny - 1 then
    (perturbSeq ((i - 1) * (Grid.ny - 1) + j) : ℚ) / 10 ^ 10
  else 0

/-- Model.perturb: re-interpolate vm to the shorter step, build the noise
streamfunction, remove its zonal mean and scale by noisescale, convert it to a
vorticity perturbation with calcvor (into a fresh zero Var), and add that same
perturbation to both v and vm.  Returns the new (v1t, v3t) and (vm1t, vm3t). -/
def perturb (v1t v3t vm1t vm3t : Grid2) : (Grid2 × Grid2) × (Grid2 × Grid2) :=
  let vm := perturb_interp v1t v3t vm1t vm3t
  let stv : Var := { l1t := perturb_stmp, l3t := perturb_stmp, l1 := zeroG, l3 := zeroG,
                     l1z := fun _ => 0, l3z := fun _ => 0 }
  let sts := stv.split
  let s1 := fun i j => Model.noisescale * sts.l1 i j
  let s3 := fun i j => Model.noisescale * sts.l3 i j
  let vt := calcvor s1 s3 zeroG zeroG
  ((fun i j => v1t i j + vt.1 i j, fun i j => v3t i j + vt.2 i j),
   (fun i j => vm.1 i j + vt.1 i j, fun i j => vm.2 i j + vt.2 i j))

/-! ## Theorems -/

/-- The loop variable of relax1_nb never reaches 100: running with fuel+1
iterations left and current loop index iter returns a loop index at most
iter + fuel. -/
lemma relax1_run_iter_le (nx ny : ℕ) (epsq gamma : ℚ) (v1 v3 : Grid2) :
    ∀ fuel iter st, (relax1_run nx ny epsq gamma v1 v3 (fuel + 1) iter st).2.1 ≤ iter + fuel := by
  intro fuel
  induction fuel with
  | zero =>
    intro iter st
    simp only [relax1_run]
    split
    · simp
    · simp
  | succ f ih =>
    intro iter st
    simp only [relax1_run]
    split
    · simp
    · have h := ih (iter + 1)
        ((relax1_sweep nx ny epsq gamma v1 v3 st.1 st.2).s1,
         (relax1_sweep nx ny epsq gamma v1 v3 st.1 st.2).s3)
      omega

lemma c1s_zero : c1s 0 = zeroG := by
  funext i j
  simp [c1s, zeroG]

lemma c1_sweep (n : ℕ) :
    relax1_sweep 1 2 0 0 c1v1 zeroG (c1s n) zeroG =
      ⟨c1s (n + 1), zeroG, 250000000000, 500000⟩ := by
  have hpts : interiorPts 1 2 = [(1, 1)] := rfl
  unfold relax1_sweep relax1_sweepOrder
  rw [hpts]
  simp only [List.foldl, relax1_point, wrapm, wrapp]
  norm_num [Relax1St.mk.injEq, c1v1, zeroG]
  refine ⟨?_, ?_, ?_, ?_⟩
  · funext i j
    by_cases h : i = 1 ∧ j = 1
    · obtain ⟨hi, hj⟩ := h
      subst hi hj
      norm_num [upd, c1s]
      ring
    · norm_num [upd, c1s, h]
  · funext i j
    by_cases h : i = 1 ∧ j = 1
    · obtain ⟨hi, hj⟩ := h
      subst hi hj
      norm_num [upd, c1s, zeroG]
    · norm_num [upd, zeroG, h]
  · ring_nf
  · ring_nf
    try norm_num

lemma c1_run (fuel : ℕ) : ∀ iter n,
    relax1_run 1 2 0 0 c1v1 zeroG (fuel + 1) iter (c1s n, zeroG) =
      ((c1s (n + fuel + 1), zeroG), iter + fuel, 250000000000, 500000) := by
  induction fuel with
  | zero =>
    intro iter n
    simp only [relax1_run]
    rw [c1_sweep n]
    norm_num
  | succ f ih =>
    intro iter n
    simp only [relax1_run]
    rw [c1_sweep n]
    norm_num
    rw [ih (iter + 1) (n + 1)]
    have h1 : n + 1 + f + 1 = n + (f + 1) + 1 := by omega
    have h2 : iter + 1 + f = iter + (f + 1) := by omega
    rw [h1, h2]

lemma c1_run_full :
    relax1_run 1 2 0 0 c1v1 zeroG 100 0 (zeroG, zeroG) =
      ((c1s 100, zeroG), 99, 250000000000, 500000) := by
  have h0 : (zeroG, zeroG) = ((c1s 0 : Grid2), zeroG) := by rw [c1s_zero]
  rw [h0, show (100 : ℕ) = 99 + 1 from rfl, c1_run 99 0 0]

/-- C1: the claim says that when relax1_nb fails to reach maxdiff < 0.5*3.75e4
within 100 iterations it raises the RELAX1-failed error and never returns
silently.  In the code the post-loop guard `iter >= 100` is dead (the loop
variable of `range(100)` is at most 99), so relax1_nb returns Except.ok on
EVERY input; on the concrete divergent input c1v1 it runs all 100 sweeps,
ends with maxdiff = 500000, far above the threshold 18750, and still returns
Except.ok — the unconverged iterate is returned silently. -/
theorem c1_relax1_cap_never_raises :
    (∀ v1 v3 s1 s3 : Grid2, ∀ nx ny : ℕ, ∀ epsq gamma : ℚ,
      ∃ st, relax1_nb v1 v3 s1 s3 nx ny epsq gamma = Except.ok st) ∧
    relax1_nb c1v1 zeroG zeroG zeroG 1 2 0 0 = Except.ok (c1s 100, zeroG) ∧
    (relax1_run 1 2 0 0 c1v1 zeroG 100 0 (zeroG, zeroG)).2.2.2 = 500000 ∧
    (1 / 2 : ℚ) * 37500 ≤ (relax1_run 1 2 0 0 c1v1 zeroG 100 0 (zeroG, zeroG)).2.2.2 := by
  refine ⟨?_, ?_, ?_, ?_⟩
  · intro v1 v3 s1 s3 nx ny epsq gamma
    refine ⟨(relax1_run nx ny epsq gamma v1 v3 100 0 (s1, s3)).1, ?_⟩
    unfold relax1_nb
    have h := relax1_run_iter_le nx ny epsq gamma v1 v3 99 0 (s1, s3)
    norm_num at h
    rw [if_neg (by omega)]
  · unfold relax1_nb
    rw [c1_run_full]
    norm_num
  · rw [c1_run_full]
  · rw [c1_run_full]
    norm_num

/-- Each temp cell after a fold of relax2 writes holds the pointwise value
determined by the previous iterate alone, wherever the visit list reached. -/
lemma relax2_tempStep_foldl (nx : ℕ) (alpha epsq k dt : ℚ) (x1 x3 v1 v3 : Grid2) :
    ∀ (order : List (ℕ × ℕ)) (t : Grid2 × Grid2) (i j : ℕ),
      (order.foldl (relax2_tempStep nx alpha epsq k dt x1 x3 v1 v3) t).1 i j =
        (if (i, j) ∈ order then relax2_tval1 nx alpha epsq x1 v1 i j else t.1 i j) ∧
      (order.foldl (relax2_tempStep nx alpha epsq k dt x1 x3 v1 v3) t).2 i j =
        (if (i, j) ∈ order then relax2_tval3 nx alpha epsq k dt x3 v3 i j else t.2 i j) := by
  intro order
  induction order with
  | nil =>
    intro t i j
    simp
  | cons a l ih =>
    rcases a with ⟨a1, a2⟩
    intro t i j
    obtain ⟨ih1, ih2⟩ := ih (relax2_tempStep nx alpha epsq k dt x1 x3 v1 v3 t (a1, a2)) i j
    rw [List.foldl_cons]
    constructor
    · rw [ih1]
      by_cases hmem : (i, j) ∈ l
      · simp [hmem]
      · by_cases heq : i = a1 ∧ j = a2
        · obtain ⟨h1, h2⟩ := heq
          subst h1 h2
          simp [hmem, relax2_tempStep, upd]
        · have : ¬ ((i, j) = (a1, a2)) := by
            simp only [Prod.mk.injEq]
            exact heq
          simp [hmem, this, relax2_tempStep, upd, heq]
    · rw [ih2]
      by_cases hmem : (i, j) ∈ l
      · simp [hmem]
      · by_cases heq : i = a1 ∧ j = a2
        · obtain ⟨h1, h2⟩ := heq
          subst h1 h2
          simp [hmem, relax2_tempStep, upd]
        · have : ¬ ((i, j) = (a1, a2)) := by
            simp only [Prod.mk.injEq]
            exact heq
          simp [hmem, this, relax2_tempStep, upd, heq]

/-- Two visit orders that are permutations of one another build identical temp
arrays, because every write depends only on the previous iterate. -/
lemma relax2_tempOrder_perm (nx : ℕ) (alpha epsq k dt : ℚ) (x1 x3 v1 v3 : Grid2)
    (L M : List (ℕ × ℕ)) (h : L.Perm M) :
    relax2_tempOrder L nx alpha epsq k dt x1 x3 v1 v3 =
      relax2_tempOrder M nx alpha epsq k dt x1 x3 v1 v3 := by
  unfold relax2_tempOrder
  refine Prod.ext ?_ ?_ <;> funext i j
  · rw [(relax2_tempStep_foldl nx alpha epsq k dt x1 x3 v1 v3 L (zeroG, zeroG) i j).1,
      (relax2_tempStep_foldl nx alpha epsq k dt x1 x3 v1 v3 M (zeroG, zeroG) i j).1]
    by_cases hm : (i, j) ∈ L
    · simp [hm, h.mem_iff.mp hm]
    · have hm2 : ¬ (i, j) ∈ M := fun hc => hm (h.mem_iff.mpr hc)
      simp [hm, hm2]
  · rw [(relax2_tempStep_foldl nx alpha epsq k dt x1 x3 v1 v3 L (zeroG, zeroG) i j).2,
      (relax2_tempStep_foldl nx alpha epsq k dt x1 x3 v1 v3 M (zeroG, zeroG) i j).2]
    by_cases hm : (i, j) ∈ L
    · simp [hm, h.mem_iff.mp hm]
    · have hm2 : ¬ (i, j) ∈ M := fun hc => hm (h.mem_iff.mpr hc)
      simp [hm, hm2]

/-- C2 counterexample: the claim asserts that BOTH relaxation solvers keep old
and new values separate within a sweep, making the sweep order-independent.
relax1_nb updates in place (Gauss-Seidel): one sweep visited in the source
order and the same sweep visited in reverse order give different level-1
results at the point (2,1), already on a 2 x 2 grid with the model's epsq and
gamma and a unit forcing. -/
theorem c2_relax1_sweep_order_dependent :
    (relax1_sweepOrder (interiorPts 2 2) 2 Model.epsq Model.gamma c2v1 zeroG
        zeroG zeroG).s1 2 1 ≠
      (relax1_sweepOrder ((interiorPts 2 2).reverse) 2 Model.epsq Model.gamma c2v1 zeroG
        zeroG zeroG).s1 2 1 := by
  have h1 : interiorPts 2 2 = [(1, 1), (2, 1)] := rfl
  have h2 : ([(1, 1), (2, 1)] : List (ℕ × ℕ)).reverse = [(2, 1), (1, 1)] := rfl
  unfold relax1_sweepOrder
  rw [h1, h2]
  simp only [List.foldl]
  norm_num [relax1_point, wrapm, wrapp, upd, c2v1, zeroG, Model.epsq, Model.gamma,
    Model.eps, Model.lambdasq, Grid.dx, Grid.dy, Grid.L, Grid.W, Grid.nx, Grid.ny]

/-- C2 (amended): in relax2_nb each temp write reads only the previous sweep's
state, so a relax2_nb sweep along any permutation of the interior points gives
exactly the result of the source-order sweep, for every input state; relax1_nb
by contrast updates in place and is visit-order dependent (see the
counterexample). -/
theorem c2_relax2_sweep_order_independent (order : List (ℕ × ℕ)) (nx ny : ℕ)
    (alpha epsq k dt : ℚ) (x1 x3 : Grid2) (st : Grid2 × Grid2)
    (h : order.Perm (interiorPts nx ny)) :
    relax2_sweepOrder order nx ny alpha epsq k dt x1 x3 st =
      relax2_sweep nx ny alpha epsq k dt x1 x3 st := by
  unfold relax2_sweep relax2_sweepOrder
  rw [relax2_tempOrder_perm nx alpha epsq k dt x1 x3 st.1 st.2 order (interiorPts nx ny) h]

/-- Witness for C2: the reversed visit order is a permutation of the source
order, so the reversed relax2_nb sweep agrees with the source-order sweep. -/
theorem c2_relax2_sweep_order_independent_witness :
    relax2_sweepOrder ((interiorPts 2 2).reverse) 2 2 1 1 0 1 c2v1 zeroG
        (zeroG, zeroG) =
      relax2_sweep 2 2 1 1 0 1 c2v1 zeroG (zeroG, zeroG) :=
  c2_relax2_sweep_order_independent ((interiorPts 2 2).reverse) 2 2 1 1 0 1 c2v1 zeroG
    (zeroG, zeroG) (List.reverse_perm (interiorPts 2 2))

/-- C3: for every layered field, splitting into zonal mean and anomaly and then
recomposing total = anomaly + zonal mean reproduces the original total field at
every grid point, exactly, on both levels. -/
theorem c3_split_compose_roundtrip (v : Var) (i j : ℕ) :
    (v.split.composeTot).l1t i j = v.l1t i j ∧
      (v.split.composeTot).l3t i j = v.l3t i j := by
  constructor <;>
    simp [Var.split, Var.composeTot, Var.calc_zmean]

/-- A fold of xcalc writes leaves every cell outside the visit list unchanged. -/
lemma xcalc_foldl_notmem (nx ny : ℕ) (dt epsq alpha b c h k gamma : ℚ)
    (v1t v3t vm1t vm3t s1t s3t : Grid2) :
    ∀ (L : List (ℕ × ℕ)) (acc : Grid2 × Grid2) (i j : ℕ), (i, j) ∉ L →
      (L.foldl (xcalc_point nx ny dt epsq alpha b c h k gamma v1t v3t vm1t vm3t s1t s3t)
          acc).1 i j = acc.1 i j ∧
      (L.foldl (xcalc_point nx ny dt epsq alpha b c h k gamma v1t v3t vm1t vm3t s1t s3t)
          acc).2 i j = acc.2 i j := by
  intro L
  induction L with
  | nil =>
    intro acc i j _
    simp
  | cons a l ih =>
    rcases a with ⟨a1, a2⟩
    intro acc i j hmem
    rw [List.foldl_cons]
    have hne : ¬ (i = a1 ∧ j = a2) := by
      rintro ⟨h1, h2⟩
      exact hmem (by simp [h1, h2])
    obtain ⟨ih1, ih2⟩ :=
      ih (xcalc_point nx ny dt epsq alpha b c h k gamma v1t v3t vm1t vm3t s1t s3t acc (a1, a2))
        i j (fun hc => hmem (List.mem_cons_of_mem _ hc))
    rw [ih1, ih2]
    constructor <;> simp [xcalc_point, upd, hne]

/-- Membership in the interior visit list. -/
lemma interiorPts_mem (nx ny : ℕ) (p : ℕ × ℕ) :
    p ∈ interiorPts nx ny ↔ 1 ≤ p.1 ∧ p.1 ≤ nx ∧ 1 ≤ p.2 ∧ p.2 ≤ ny - 1 := by
  rcases p with ⟨i, j⟩
  simp only [interiorPts, List.mem_flatMap, List.mem_map, List.mem_range]
  constructor
  · rintro ⟨j0, ⟨a, ha, haj⟩, i0, ⟨bb, hb, hbi⟩, hij⟩
    obtain ⟨hi, hj⟩ := Prod.mk.injEq _ _ _ _ ▸ hij
    simp only [Prod.mk.injEq] at hij
    omega
  · rintro ⟨h1, h2, h3, h4⟩
    exact ⟨j, ⟨j - 1, by omega, by omega⟩, i, ⟨i - 1, by omega, by omega⟩, rfl⟩

/-- C4 (amended): xcalc_nb first zeroes the whole tendency arrays and then
writes only interior latitude rows, so after the call rows j = 0 and j = ny of
both tendency levels hold zero for every input, regardless of the tendency
values held before the call (the prior values are not preserved, they are
overwritten with zero). -/
theorem c4_xcalc_boundary_rows_zero (v1t v3t vm1t vm3t s1t s3t x1t x3t : Grid2)
    (dt : ℚ) (nx ny : ℕ) (epsq alpha b c h k gamma : ℚ) (i j : ℕ)
    (hj : j = 0 ∨ j = ny) :
    (xcalc_nb v1t v3t vm1t vm3t s1t s3t x1t x3t dt nx ny epsq alpha b c h k gamma).1 i j = 0 ∧
    (xcalc_nb v1t v3t vm1t vm3t s1t s3t x1t x3t dt nx ny epsq alpha b c h k gamma).2 i j = 0 := by
  have hnot : (i, j) ∉ interiorPts nx ny := by
    rw [interiorPts_mem]
    rintro ⟨-, -, h1, h2⟩
    rcases hj with hj | hj <;> omega
  unfold xcalc_nb
  obtain ⟨e1, e2⟩ := xcalc_foldl_notmem nx ny dt epsq alpha b c h k gamma
    v1t v3t vm1t vm3t s1t s3t (interiorPts nx ny) (zeroG, zeroG) i j hnot
  rw [e1, e2]
  simp [zeroG]

/-- Witness for C4: at row 0 of a 2 x 2 instance both tendency levels are 0. -/
theorem c4_xcalc_boundary_rows_zero_witness :
    (xcalc_nb zeroG zeroG zeroG zeroG zeroG zeroG zeroG zeroG 1 2 2 0 0 0 0 0 0 0).1 3 0 = 0 ∧
    (xcalc_nb zeroG zeroG zeroG zeroG zeroG zeroG zeroG zeroG 1 2 2 0 0 0 0 0 0 0).2 3 0 = 0 :=
  c4_xcalc_boundary_rows_zero zeroG zeroG zeroG zeroG zeroG zeroG zeroG zeroG 1 2 2 0 0 0 0 0 0 0
    3 0 (Or.inl rfl)

/-- C4 counterexample: the claim says the tendency values held in latitude rows
0 and ny before the call are unchanged by it; passing arrays holding 5
everywhere, the cell (0,0) holds 0 after the call, not its prior value 5 —
xcalc_nb zeroes the whole arrays first. -/
theorem c4_xcalc_boundary_not_preserved :
    (xcalc_nb zeroG zeroG zeroG zeroG zeroG zeroG c4x c4x 1 2 2 0 0 0 0 0 0 0).1 0 0 ≠
      c4x 0 0 := by
  have hnot : ((0 : ℕ), (0 : ℕ)) ∉ interiorPts 2 2 := by
    rw [interiorPts_mem]
    rintro ⟨h1, -⟩
    omega
  unfold xcalc_nb
  obtain ⟨e1, -⟩ := xcalc_foldl_notmem 2 2 1 0 0 0 0 0 0 0
    zeroG zeroG zeroG zeroG zeroG zeroG (interiorPts 2 2) (zeroG, zeroG) 0 0 hnot
  rw [e1]
  norm_num [zeroG, c4x]

/-- C5: msq_rand computes ((x*x) div 10^5) mod 10^10 for every non-negative
integer (square, drop the low 5 decimal digits, keep the middle 10 digits);
the perturbation sequence iterated from the fixed seed 1111111111 has first
values 5679009876, 1531717055, 1571365778, and any sequence satisfying the
same seed and recurrence agrees with perturbSeq everywhere, so the sequence
used by Model.perturb is fully deterministic. -/
theorem c5_msq_rand_formula :
    (∀ x : ℕ, msq_rand x = x * x / 10 ^ 5 % 10 ^ 10) ∧
    perturbSeq 1 = 5679009876 ∧ perturbSeq 2 = 1531717055 ∧
    perturbSeq 3 = 1571365778 ∧
    (∀ f : ℕ → ℕ, f 0 = 1111111111 → (∀ n, f (n + 1) = msq_rand (f n)) →
      ∀ n, f n = perturbSeq n) := by
  refine ⟨fun x => rfl, by norm_num [perturbSeq, msq_rand],
    by norm_num [perturbSeq, msq_rand], by norm_num [perturbSeq, msq_rand], ?_⟩
  intro f h0 hs n
  induction n with
  | zero => rw [h0]; rfl
  | succ m ih => rw [hs m, ih]; rfl

/-- Witness for C5: iterating msq_rand seven times from the seed satisfies the
recurrence, hence equals perturbSeq 7. -/
theorem c5_msq_rand_formula_witness :
    msq_rand^[7] 1111111111 = perturbSeq 7 :=
  c5_msq_rand_formula.2.2.2.2 (fun n => msq_rand^[n] 1111111111) (by simp)
    (fun n => by simp [Function.iterate_succ_apply']) 7

lemma stepClock_dtOK (stab : ℚ) (cl : Clock) (h : dtOK cl.dt) :
    dtOK (stepClock stab cl).dt := by
  unfold stepClock
  dsimp only
  split
  · rename_i hc
    obtain ⟨-, h2, -⟩ := hc
    rcases h with h | h | h | h
    · exact absurd h2 (by rw [h]; norm_num [Model.min_dt])
    · exact Or.inl (by show cl.dt - Model.min_dt = 1800; rw [h]; norm_num [Model.min_dt])
    · exact Or.inr (Or.inl (by show cl.dt - Model.min_dt = 3600; rw [h]; norm_num [Model.min_dt]))
    · exact Or.inr (Or.inr (Or.inl
        (by show cl.dt - Model.min_dt = 5400; rw [h]; norm_num [Model.min_dt])))
  · exact h

lemma runClock_dtOK (l : List ℚ) : ∀ cl : Clock, dtOK cl.dt → dtOK (runClock l cl).dt := by
  induction l with
  | nil =>
    intro cl h
    exact h
  | cons s t ih =>
    intro cl h
    exact ih (stepClock s cl) (stepClock_dtOK s cl h)

/-- C6: across any sequence of Model.step calls the active time step never
increases; when it changes, it decreases by exactly min_dt, and only when the
stability criterion exceeds 0.9 at a whole simulated day with dt > min_dt;
and starting from the configured dt2 = 7200 with min_dt = 1800 the step never
goes below min_dt. -/
theorem c6_dt_monotone_bounded :
    (∀ stab : ℚ, ∀ cl : Clock,
      ((stepClock stab cl).dt = cl.dt ∨
        ((stepClock stab cl).dt = cl.dt - Model.min_dt ∧ Model.min_dt < cl.dt ∧
          9 / 10 < stab ∧ isDayMultiple (cl.time + cl.dt))) ∧
      (stepClock stab cl).dt ≤ cl.dt) ∧
    (∀ l : List ℚ, ∀ t0 : ℚ,
      Model.min_dt ≤ (runClock l { time := t0, dt := Model.dt2 }).dt) := by
  constructor
  · intro stab cl
    constructor
    · unfold stepClock
      dsimp only
      split
      · rename_i hc
        exact Or.inr ⟨rfl, hc.2.1, hc.2.2, hc.1⟩
      · exact Or.inl rfl
    · unfold stepClock
      dsimp only
      split
      · rename_i hc
        show cl.dt - Model.min_dt ≤ cl.dt
        norm_num [Model.min_dt]
      · exact le_refl cl.dt
  · intro l t0
    have h := runClock_dtOK l { time := t0, dt := Model.dt2 }
      (by norm_num [dtOK, Model.dt2])
    rcases h with h | h | h | h <;> rw [h] <;> norm_num [Model.min_dt]

/-- C7: at clock zero the new zonal-mean vorticity is exactly half the
zonal-mean tendency on both levels and vm is unchanged, and the outcome does
not depend on the tridiagonal solve at all (any two solvers give the same
result — the solve is discarded); at any other clock value the solve result is
kept and vm becomes the pre-step total vorticity. -/
theorem c7_forward_step_bootstrap
    (zsolve zs2 : (ℕ → ℚ) → (ℕ → ℚ) → (ℕ → ℚ) × (ℕ → ℚ))
    (time : ℚ) (x1z x3z : ℕ → ℚ) (v1t v3t vm1t vm3t : Grid2) :
    (time = 0 →
      zvorUpdate zsolve time x1z x3z v1t v3t vm1t vm3t =
        ((fun j => (1 / 2) * x1z j, fun j => (1 / 2) * x3z j), (vm1t, vm3t)) ∧
      zvorUpdate zsolve time x1z x3z v1t v3t vm1t vm3t =
        zvorUpdate zs2 time x1z x3z v1t v3t vm1t vm3t) ∧
    (time ≠ 0 →
      zvorUpdate zsolve time x1z x3z v1t v3t vm1t vm3t =
        (zsolve x1z x3z, (v1t, v3t))) := by
  constructor
  · intro h
    subst h
    constructor <;> simp [zvorUpdate]
  · intro h
    simp [zvorUpdate, h]

/-- Witness for C7: at clock zero the update ignores which solver is passed. -/
theorem c7_forward_step_bootstrap_witness :
    zvorUpdate c7zsA 0 (fun _ => 1) (fun _ => 2) zeroG zeroG zeroG zeroG =
      zvorUpdate c7zsB 0 (fun _ => 1) (fun _ => 2) zeroG zeroG zeroG zeroG :=
  ((c7_forward_step_bootstrap c7zsA c7zsB 0 (fun _ => 1) (fun _ => 2)
    zeroG zeroG zeroG zeroG).1 rfl).2

/-- Full characterisation of the relax2_nb iteration loop: starting the run on
the n-th iterate, the returned state is the (n+count)-th iterate, at least one
and at most fuel sweeps are performed, no sweep before the last one met the
convergence test, and if the run stopped before exhausting its fuel the last
sweep met the test. -/
lemma relax2_run_spec (nx ny : ℕ) (alpha epsq k dt : ℚ) (x1 x3 : Grid2) :
    ∀ fuel n,
      (relax2_run nx ny alpha epsq k dt x1 x3 fuel
          (relax2_iterState nx ny alpha epsq k dt x1 x3 n)).1 =
        relax2_iterState nx ny alpha epsq k dt x1 x3
          (n + (relax2_run nx ny alpha epsq k dt x1 x3 fuel
            (relax2_iterState nx ny alpha epsq k dt x1 x3 n)).2) ∧
      (relax2_run nx ny alpha epsq k dt x1 x3 fuel
        (relax2_iterState nx ny alpha epsq k dt x1 x3 n)).2 ≤ fuel ∧
      (0 < fuel → 0 < (relax2_run nx ny alpha epsq k dt x1 x3 fuel
        (relax2_iterState nx ny alpha epsq k dt x1 x3 n)).2) ∧
      (∀ m, m + 1 < (relax2_run nx ny alpha epsq k dt x1 x3 fuel
          (relax2_iterState nx ny alpha epsq k dt x1 x3 n)).2 →
        ¬ relax2_crit nx ny alpha epsq k dt x1 x3 (n + m)) ∧
      ((relax2_run nx ny alpha epsq k dt x1 x3 fuel
          (relax2_iterState nx ny alpha epsq k dt x1 x3 n)).2 < fuel →
        relax2_crit nx ny alpha epsq k dt x1 x3
          (n + (relax2_run nx ny alpha epsq k dt x1 x3 fuel
            (relax2_iterState nx ny alpha epsq k dt x1 x3 n)).2 - 1)) := by
  intro fuel
  induction fuel with
  | zero =>
    intro n
    simp only [relax2_run]
    refine ⟨by rw [Nat.add_zero], le_refl 0, by omega, by omega, by omega⟩
  | succ f ih =>
    intro n
    by_cases hc : relax2_crit nx ny alpha epsq k dt x1 x3 n
    · unfold relax2_crit at hc
      have hrun : relax2_run nx ny alpha epsq k dt x1 x3 (f + 1)
          (relax2_iterState nx ny alpha epsq k dt x1 x3 n) =
          ((relax2_sweep nx ny alpha epsq k dt x1 x3
            (relax2_iterState nx ny alpha epsq k dt x1 x3 n)).1, 1) := by
        simp only [relax2_run]
        rw [if_pos hc]
      rw [hrun]
      refine ⟨rfl, by omega, fun _ => by omega, by omega, fun _ => ?_⟩
      unfold relax2_crit
      simpa using hc
    · have hc2 := hc
      unfold relax2_crit at hc2
      have hrun : relax2_run nx ny alpha epsq k dt x1 x3 (f + 1)
          (relax2_iterState nx ny alpha epsq k dt x1 x3 n) =
          ((relax2_run nx ny alpha epsq k dt x1 x3 f
            (relax2_iterState nx ny alpha epsq k dt x1 x3 (n + 1))).1,
           (relax2_run nx ny alpha epsq k dt x1 x3 f
            (relax2_iterState nx ny alpha epsq k dt x1 x3 (n + 1))).2 + 1) := by
        simp only [relax2_run]
        rw [if_neg hc2]
        rfl
      rw [hrun]
      obtain ⟨ih1, ih2, _, ih4, ih5⟩ := ih (n + 1)
      refine ⟨?_, by omega, fun _ => by omega, ?_, ?_⟩
      · rw [ih1]
        have harg : n + 1 + (relax2_run nx ny alpha epsq k dt x1 x3 f
            (relax2_iterState nx ny alpha epsq k dt x1 x3 (n + 1))).2 =
            n + ((relax2_run nx ny alpha epsq k dt x1 x3 f
              (relax2_iterState nx ny alpha epsq k dt x1 x3 (n + 1))).2 + 1) := by
          omega
        rw [harg]
      · intro m hm
        rcases m with _ | m
        · simpa using hc
        · have h := ih4 m (by omega)
          have harg : n + 1 + m = n + (m + 1) := by omega
          rwa [harg] at h
      · intro hlt
        have h := ih5 (by omega)
        have hpos : 0 < (relax2_run nx ny alpha epsq k dt x1 x3 f
            (relax2_iterState nx ny alpha epsq k dt x1 x3 (n + 1))).2 := by
          rcases Nat.eq_zero_or_pos (relax2_run nx ny alpha epsq k dt x1 x3 f
            (relax2_iterState nx ny alpha epsq k dt x1 x3 (n + 1))).2 with h0 | hp
          · rw [h0] at hlt ⊢
            have := ih (n + 1)
            omega
          · exact hp
        have harg : n + 1 + (relax2_run nx ny alpha epsq k dt x1 x3 f
            (relax2_iterState nx ny alpha epsq k dt x1 x3 (n + 1))).2 - 1 =
            n + ((relax2_run nx ny alpha epsq k dt x1 x3 f
              (relax2_iterState nx ny alpha epsq k dt x1 x3 (n + 1))).2 + 1) - 1 := by
          omega
        rwa [harg] at h

/-- C8 (amended): relax2_nb never raises an error: for every input it returns
after at most 100 sweeps (and performs at least one); the returned state is
exactly the count-fold sweep iterate of the zeroed anomaly; it stops early as
soon as the source's change measure — the sum of squared differences between
successive iterates over longitudes 1..nx and latitudes 1..ny, the ny boundary
row included — is below 1.0 for both levels, and when no sweep meets that
measure it silently returns the 100th iterate. -/
theorem c8_relax2_loop_characterization (v10 v30 x1 x3 : Grid2) (dt : ℚ)
    (nx ny : ℕ) (alpha epsq k : ℚ) :
    (relax2_nb v10 v30 x1 x3 dt nx ny alpha epsq k).2 ≤ 100 ∧
    0 < (relax2_nb v10 v30 x1 x3 dt nx ny alpha epsq k).2 ∧
    (relax2_nb v10 v30 x1 x3 dt nx ny alpha epsq k).1 =
      relax2_iterState nx ny alpha epsq k dt x1 x3
        (relax2_nb v10 v30 x1 x3 dt nx ny alpha epsq k).2 ∧
    (∀ m, m + 1 < (relax2_nb v10 v30 x1 x3 dt nx ny alpha epsq k).2 →
      ¬ relax2_crit nx ny alpha epsq k dt x1 x3 m) ∧
    ((relax2_nb v10 v30 x1 x3 dt nx ny alpha epsq k).2 < 100 →
      relax2_crit nx ny alpha epsq k dt x1 x3
        ((relax2_nb v10 v30 x1 x3 dt nx ny alpha epsq k).2 - 1)) := by
  have h := relax2_run_spec nx ny alpha epsq k dt x1 x3 100 0
  simp only [Nat.zero_add] at h
  obtain ⟨h1, h2, h3, h4, h5⟩ := h
  exact ⟨h2, h3 (by omega), h1, h4, h5⟩

lemma c8g_zero : c8g 0 = zeroG := by
  funext i j
  simp [c8g, c8v, zeroG]

lemma c8v_rec (n : ℕ) : (c8v n + 10) / 2 = c8v (n + 1) := by
  unfold c8v
  rw [pow_succ]
  have h : (2 : ℚ) ^ n ≠ 0 := pow_ne_zero n two_ne_zero
  field_simp
  ring

lemma c8_temp (n : ℕ) :
    relax2_tempOrder (interiorPts 1 2) 1 (1 / 2) 0 0 1 c8x zeroG (c8g n) zeroG =
      (upd zeroG 1 1 (c8v (n + 1)), upd zeroG 1 1 0) := by
  have h1 : relax2_tval1 1 (1 / 2) 0 c8x (c8g n) 1 1 = c8v (n + 1) := by
    unfold relax2_tval1 wrapm wrapp
    norm_num [c8x, c8g]
    linarith [c8v_rec n]
  have h3 : relax2_tval3 1 (1 / 2) 0 0 1 zeroG zeroG 1 1 = 0 := by
    unfold relax2_tval3 wrapm wrapp
    norm_num [zeroG]
  rw [show interiorPts 1 2 = [(1, 1)] from rfl]
  unfold relax2_tempOrder
  simp only [List.foldl, relax2_tempStep]
  rw [Prod.mk.injEq]
  exact ⟨by rw [h1], by rw [h3]⟩

lemma c8_sweep (n : ℕ) :
    relax2_sweep 1 2 (1 / 2) 0 0 1 c8x zeroG (c8g n, zeroG) =
      ((c8g (n + 1), zeroG), c8ch n, 0) := by
  unfold relax2_sweep relax2_sweepOrder
  dsimp only
  rw [c8_temp n]
  rw [Prod.mk.injEq, Prod.mk.injEq, Prod.mk.injEq]
  refine ⟨⟨?_, ?_⟩, ?_, ?_⟩
  · funext i j
    by_cases h0 : j = 0
    · subst h0
      norm_num [relax2_copyBC, rowMean, c8g, upd, zeroG, List.range_succ]
    · by_cases h2 : j = 2
      · subst h2
        norm_num [relax2_copyBC, rowMean, c8g, upd, zeroG, List.range_succ]
      · by_cases h1 : j = 1
        · subst h1
          by_cases hi : i = 1 <;>
            norm_num [relax2_copyBC, c8g, upd, zeroG, hi]
        · have hc : ¬ (1 ≤ j ∧ j ≤ 2 - 1) := by omega
          norm_num [relax2_copyBC, c8g, upd, zeroG, h0, h1, h2, hc]
  · funext i j
    by_cases h0 : j = 0
    · subst h0
      norm_num [relax2_copyBC, rowMean, upd, zeroG, List.range_succ]
    · by_cases h2 : j = 2
      · subst h2
        norm_num [relax2_copyBC, rowMean, upd, zeroG, List.range_succ]
      · norm_num [relax2_copyBC, upd, zeroG, h0, h2]
  · norm_num [relax2_changeSum, c8g, upd, zeroG, List.range_succ, c8ch]
    try ring
  · norm_num [relax2_changeSum, upd, zeroG, List.range_succ]

lemma c8ch_ge_one (n : ℕ) : 1 ≤ c8ch n := by
  unfold c8ch c8v
  rcases n with _ | m
  · norm_num
  · have hp : (0 : ℚ) < 2 ^ (m + 1) := by positivity
    have h2 : (2 : ℚ) ≤ 2 ^ (m + 1) := by
      calc (2 : ℚ) = 2 ^ 1 := (pow_one 2).symm
        _ ≤ 2 ^ (m + 1) := by
            apply pow_le_pow_right₀ (by norm_num)
            omega
    have hd : (10 : ℚ) / 2 ^ (m + 1) ≤ 5 := by
      rw [div_le_iff₀ hp]
      nlinarith
    have hB : (5 / 2 : ℚ) ≤ (10 - 10 / 2 ^ (m + 1)) / 2 := by linarith
    have hB2 : ((5 : ℚ) / 2) ^ 2 ≤ ((10 - 10 / 2 ^ (m + 1)) / 2) ^ 2 :=
      pow_le_pow_left (by norm_num) hB 2
    have hA := sq_nonneg (((10 : ℚ) - 10 / 2 ^ (m + 1)) - (10 - 10 / 2 ^ (m + 1 + 1)))
    calc (1 : ℚ) ≤ (5 / 2) ^ 2 := by norm_num
      _ ≤ ((10 - 10 / 2 ^ (m + 1)) / 2) ^ 2 := hB2
      _ ≤ (10 - 10 / 2 ^ (m + 1) - (10 - 10 / 2 ^ (m + 1 + 1))) ^ 2 +
            ((10 - 10 / 2 ^ (m + 1)) / 2) ^ 2 := le_add_of_nonneg_left hA

lemma c8_iter (n : ℕ) :
    relax2_iterState 1 2 (1 / 2) 0 0 1 c8x zeroG n = (c8g n, zeroG) := by
  induction n with
  | zero =>
    show ((zeroG, zeroG) : Grid2 × Grid2) = (c8g 0, zeroG)
    rw [c8g_zero]
  | succ m ih =>
    show (relax2_sweep 1 2 (1 / 2) 0 0 1 c8x zeroG
      (relax2_iterState 1 2 (1 / 2) 0 0 1 c8x zeroG m)).1 = (c8g (m + 1), zeroG)
    rw [ih, c8_sweep m]

lemma c8_not_crit (n : ℕ) : ¬ relax2_crit 1 2 (1 / 2) 0 0 1 c8x zeroG n := by
  unfold relax2_crit
  rw [c8_iter n, c8_sweep n]
  push_neg
  exact le_trans (c8ch_ge_one n) (by simp)

lemma c8_cnt : (relax2_nb zeroG zeroG c8x zeroG 1 1 2 (1 / 2) 0 0).2 = 100 := by
  have e : relax2_nb zeroG zeroG c8x zeroG 1 1 2 (1 / 2) 0 0 =
      relax2_run 1 2 (1 / 2) 0 0 1 c8x zeroG 100
        (relax2_iterState 1 2 (1 / 2) 0 0 1 c8x zeroG 0) := rfl
  rw [e]
  obtain ⟨-, h2, h3, -, h5⟩ := relax2_run_spec 1 2 (1 / 2) 0 0 1 c8x zeroG 100 0
  by_contra hne
  have hlt : (relax2_run 1 2 (1 / 2) 0 0 1 c8x zeroG 100
      (relax2_iterState 1 2 (1 / 2) 0 0 1 c8x zeroG 0)).2 < 100 := by omega
  exact c8_not_crit _ (h5 hlt)

/-- C8 counterexample: the claim says the solver stops early as soon as the sum
of squared changes over the INTERIOR points is below 1.0 for both levels.  On
the input c8x that interior measure is already below 1 at sweep 4 on both
levels, yet the solver performs all 100 sweeps: the coded measure also sums the
ny boundary row (old boundary value minus the always-zero temp entry), which
stays above 1 forever on this input. -/
theorem c8_interior_stop_violated :
    (relax2_nb zeroG zeroG c8x zeroG 1 1 2 (1 / 2) 0 0).2 = 100 ∧
    relax2_interior1 1 2 (1 / 2) 0 0 1 c8x zeroG 4 < 1 ∧
    relax2_interior3 1 2 (1 / 2) 0 0 1 c8x zeroG 4 < 1 := by
  refine ⟨c8_cnt, ?_, ?_⟩
  · unfold relax2_interior1
    rw [show (4 : ℕ) - 1 = 3 from rfl, c8_iter 3]
    dsimp only
    rw [c8_temp 3]
    norm_num [List.range_succ, c8g, upd, zeroG, c8v]
  · unfold relax2_interior3
    rw [show (4 : ℕ) - 1 = 3 from rfl, c8_iter 3]
    dsimp only
    rw [c8_temp 3]
    norm_num [List.range_succ, upd, zeroG]

lemma c8E_changes :
    (relax2_sweep 1 2 (1 / 2) 0 0 1 zeroG zeroG (zeroG, zeroG)).2.1 = 0 ∧
    (relax2_sweep 1 2 (1 / 2) 0 0 1 zeroG zeroG (zeroG, zeroG)).2.2 = 0 := by
  unfold relax2_sweep relax2_sweepOrder
  rw [show interiorPts 1 2 = [(1, 1)] from rfl]
  dsimp only
  constructor <;>
    norm_num [relax2_tempOrder, List.foldl, relax2_tempStep, relax2_tval1, relax2_tval3,
      wrapm, wrapp, relax2_changeSum, upd, zeroG, List.range_succ]

lemma c8E_crit0 : relax2_crit 1 2 (1 / 2) 0 0 1 zeroG zeroG 0 := by
  unfold relax2_crit
  rw [show relax2_iterState 1 2 (1 / 2) 0 0 1 zeroG zeroG 0 =
    ((zeroG, zeroG) : Grid2 × Grid2) from rfl]
  rw [c8E_changes.1, c8E_changes.2]
  norm_num

lemma c8E_cnt : (relax2_nb zeroG zeroG zeroG zeroG 1 1 2 (1 / 2) 0 0).2 = 1 := by
  have e : relax2_nb zeroG zeroG zeroG zeroG 1 1 2 (1 / 2) 0 0 =
      relax2_run 1 2 (1 / 2) 0 0 1 zeroG zeroG 100
        (relax2_iterState 1 2 (1 / 2) 0 0 1 zeroG zeroG 0) := rfl
  rw [e]
  obtain ⟨-, -, h3, h4, -⟩ := relax2_run_spec 1 2 (1 / 2) 0 0 1 zeroG zeroG 100 0
  simp only [Nat.zero_add] at h4
  by_contra hne
  have hpos := h3 (by omega)
  exact h4 0 (by omega) c8E_crit0

/-- Witness for C8: on the all-zero input the loop stops before the cap, and
the last sweep performed satisfied the coded convergence test. -/
theorem c8_relax2_loop_characterization_witness :
    relax2_crit 1 2 (1 / 2) 0 0 1 zeroG zeroG
      ((relax2_nb zeroG zeroG zeroG zeroG 1 1 2 (1 / 2) 0 0).2 - 1) :=
  (c8_relax2_loop_characterization zeroG zeroG zeroG zeroG 1 1 2 (1 / 2) 0 0).2.2.2.2
    (by rw [c8E_cnt]; norm_num)

/-- C9: relax2_nb re-solves the anomaly vorticity from zero on every call: the
incoming anomaly arrays are overwritten with zeros before any read, so the
returned anomaly state and sweep count are identical for any two incoming
anomaly states, with the same tendency anomaly, time step and parameters. -/
theorem c9_relax2_resolved_from_zero (v10 v30 w10 w30 x1 x3 : Grid2) (dt : ℚ)
    (nx ny : ℕ) (alpha epsq k : ℚ) :
    relax2_nb v10 v30 x1 x3 dt nx ny alpha epsq k =
      relax2_nb w10 w30 x1 x3 dt nx ny alpha epsq k := rfl

/-- C10: Model.perturb adds the identical perturbation vorticity field to both
the current vorticity v and the previous-step vorticity vm at every grid point
and on both levels, so the pointwise difference v - vm after the noise
injection is exactly v minus the freshly interpolated vm — the same difference
as immediately after the time-step interpolation. -/
theorem c10_perturb_preserves_leapfrog_difference (v1t v3t vm1t vm3t : Grid2)
    (i j : ℕ) :
    (perturb v1t v3t vm1t vm3t).1.1 i j - (perturb v1t v3t vm1t vm3t).2.1 i j =
      v1t i j - (perturb_interp v1t v3t vm1t vm3t).1 i j ∧
    (perturb v1t v3t vm1t vm3t).1.2 i j - (perturb v1t v3t vm1t vm3t).2.2 i j =
      v3t i j - (perturb_interp v1t v3t vm1t vm3t).2 i j := by
  unfold perturb
  dsimp only
  constructor <;> ring

end Phillips